import Mathlib

/-!
Shallow embedding of the telemetry collector in `src/monitoring.rs`
(`SystemStats`, `SystemMonitor::new`, `SystemMonitor::refresh`,
the background loop body of `init_monitoring`, `get_system_stats`).

Modelling conventions:
* `u64`/`usize`/`u8` values are `Nat` (the sums and counters involved stay far
  below `2 ^ 64`, so wrap-around is irrelevant to the verified properties);
  `f32`/`f64` telemetry values are `ℚ`.
* OS telemetry reads (`sysinfo` calls) are an oracle: each call to `refresh`
  receives a `MetricInput` record holding the values the OS would return this
  cycle.  The `Instant`-based gate `now.duration_since(last_update) <
  update_interval` is the oracle bit `elapsed` (true when the interval HAS
  elapsed, i.e. sampling proceeds).
* The memory-cleanup block of `refresh` (lines 243-281) only mutates the
  opaque OS handle, the `last_memory_cleanup` timestamp and sleeps; it touches
  none of the fields the properties below speak about, so it is not modelled.
* The function-local `static mut REFRESH_COUNTER` of `refresh` is modelled as
  the state field `refresh_counter`.
-/

namespace ZLT

/-- `const MB: u64 = 1024 * 1024` -/
def MB : Nat := 1024 * 1024

/-- `const DEFAULT_MIN_MEMORY: u64 = 50 * MB` -/
def DEFAULT_MIN_MEMORY : Nat := 50 * MB

/-- `const DEFAULT_MAX_MEMORY: u64 = 200 * MB` -/
def DEFAULT_MAX_MEMORY : Nat := 200 * MB

/-- `usize::MAX` on a 64-bit target (the `disk_limit` / `net_limit` value in
the unbounded-enumeration branches). -/
def USIZE_MAX : Nat := 2 ^ 64 - 1

/-- `struct SystemStats` (the Snapshot). -/
structure SystemStats where
  timestamp : Nat
  cpu_usage : ℚ
  memory_total : Nat
  memory_used : Nat
  memory_usage_percent : ℚ
  disk_total : Nat
  disk_free : Nat
  disk_usage_percent : ℚ
  network_received : Nat
  network_transmitted : Nat
  uptime : Nat
  system_load : List ℚ
  cpu_temp : Option ℚ
  processes_count : Nat
  hostname : String
  memory_within_bounds : Bool
deriving DecidableEq

/-- `impl Default for SystemStats` (lines 46-70); `now` is the epoch-seconds
timestamp `SystemTime::now()` produces. -/
def SystemStats.default (now : Nat) : SystemStats where
  timestamp := now
  cpu_usage := 0
  memory_total := 0
  memory_used := 0
  memory_usage_percent := 0
  disk_total := 0
  disk_free := 0
  disk_usage_percent := 0
  network_received := 0
  network_transmitted := 0
  uptime := 0
  system_load := [0, 0, 0]
  cpu_temp := none
  processes_count := 0
  hostname := ""
  memory_within_bounds := true

/-- One `sysinfo` component (temperature sensor): its label and temperature. -/
structure Component where
  label : String
  temperature : ℚ
deriving DecidableEq

/-- One `sysinfo` disk: `total_space()` and `available_space()` in bytes. -/
structure Disk where
  total_space : Nat
  available_space : Nat
deriving DecidableEq

/-- One `sysinfo` network interface: cumulative `received()` / `transmitted()`. -/
structure Network where
  received : Nat
  transmitted : Nat
deriving DecidableEq

/-- The values the OS telemetry provider would return during one `refresh`
call, plus the elapsed-interval gate bit. -/
structure MetricInput where
  /-- epoch seconds at snapshot build time -/
  now_ts : Nat
  /-- `now.duration_since(self.last_update) >= self.update_interval` -/
  elapsed : Bool
  /-- `global_cpu_info().cpu_usage()` after `refresh_cpu()` -/
  cpuFresh : ℚ
  /-- `total_memory()` -/
  memTotal : Nat
  /-- `used_memory()` -/
  memUsed : Nat
  /-- `disks()` -/
  disks : List Disk
  /-- `networks()` -/
  networks : List Network
  /-- `uptime()` -/
  uptime : Nat
  load1 : ℚ
  load5 : ℚ
  load15 : ℚ
  /-- `components()` -/
  components : List Component
  /-- `processes().len()` -/
  processCount : Nat
  /-- `host_name()` -/
  hostOpt : Option String
deriving DecidableEq

/-- `struct SystemMonitor` (time-valued fields `last_update`,
`last_memory_cleanup`, `update_interval` are abstracted into the oracle
`elapsed` bit; the `System` handle is the oracle itself). -/
structure SystemMonitor where
  stats : SystemStats
  active : Bool
  cpu_history : List ℚ
  memory_history : List Nat
  cycle_count : Nat
  memory_limit_min : Nat
  memory_limit_max : Nat
  resource_level : Nat
  refresh_counter : Nat
deriving DecidableEq

/-- The history-buffer push used in `refresh` (lines 217-219 and 285-287):
`pop_front()` then `push_back(x)` on a `VecDeque`. -/
def histPush (l : List α) (x : α) : List α := l.drop 1 ++ [x]

/-- `needle` occurs as a contiguous substring of `hay`
(Rust `str::contains`). -/
def containsSubOf (needle hay : List Char) : Bool :=
  hay.tails.any (fun t => needle.isPrefixOf t)

/-- `component.label().contains("CPU")` -/
def labelContainsCPU (s : String) : Bool :=
  containsSubOf "CPU".toList s.toList

/-- The temperature loop of `refresh` (lines 355-362): `max_temp` starts at
`0.0`; the first component whose label contains "CPU" raises it to
`max(0, temp)` and the loop breaks; with no matching component the initial
`0.0` survives. -/
def firstCpuTemp (cs : List Component) : ℚ :=
  match cs.find? (fun c => labelContainsCPU c.label) with
  | some c => max 0 c.temperature
  | none => 0

/-- The sampling-breadth resource-level policy inside `refresh`
(lines 227-241).  Levels: 0 = Minimal, 1 = Low, 2 = Medium. -/
def breadthLevel (used minB maxB : Nat) : Nat :=
  if used > maxB then 0
  else if used > maxB * 80 / 100 then 1
  else if used < minB then 2
  else 2

/-- The disk block of `refresh` (lines 290-314): recompute when
`(level ≥ 2 ∧ cycle % 5 = 0) ∨ (level = 1 ∧ cycle % 10 = 0)`, summing the
first `disk_limit` disks (`usize::MAX` at level ≥ 2, else 2); otherwise keep
the cached `(disk_total, disk_free, disk_usage_percent)` triple. -/
def diskStep (resource_level cycle_count : Nat) (disks : List Disk)
    (cached : Nat × Nat × ℚ) : Nat × Nat × ℚ :=
  if (2 ≤ resource_level ∧ cycle_count % 5 = 0) ∨
     (resource_level = 1 ∧ cycle_count % 10 = 0) then
    let disk_limit := if 2 ≤ resource_level then USIZE_MAX else 2
    let total := ((disks.take disk_limit).map Disk.total_space).sum
    let free := ((disks.take disk_limit).map Disk.available_space).sum
    let used := total - free
    let percent : ℚ := if 0 < total then (used : ℚ) / (total : ℚ) * 100 else 0
    (total, free, percent)
  else cached

/-- The network block of `refresh` (lines 317-340): recompute when
`(level ≥ 3 ∧ cycle % 3 = 0) ∨ (level = 2 ∧ cycle % 8 = 0)`, summing the
first `net_limit` interfaces (`usize::MAX` at level ≥ 3, else 2); otherwise
keep the cached pair. -/
def netStep (resource_level cycle_count : Nat) (nets : List Network)
    (cached : Nat × Nat) : Nat × Nat :=
  if (3 ≤ resource_level ∧ cycle_count % 3 = 0) ∨
     (resource_level = 2 ∧ cycle_count % 8 = 0) then
    let net_limit := if 3 ≤ resource_level then USIZE_MAX else 2
    (((nets.take net_limit).map Network.received).sum,
     ((nets.take net_limit).map Network.transmitted).sum)
  else cached

/-- The CPU-temperature block of `refresh` (lines 353-368): at
`level ≥ 2 ∧ cycle % 10 = 0` re-read components and produce
`Some(firstCpuTemp)`; otherwise the cached value. -/
def tempStep (resource_level cycle_count : Nat) (components : List Component)
    (cached : Option ℚ) : Option ℚ :=
  if 2 ≤ resource_level ∧ cycle_count % 10 = 0 then
    some (firstCpuTemp components)
  else cached

/-- `SystemMonitor::refresh` (lines 177-413).  Returns the new monitor state
and the `SystemStats` the call returns (`self.stats.clone()`). -/
def SystemMonitor.refresh (st : SystemMonitor) (inp : MetricInput) :
    SystemMonitor × SystemStats :=
  if st.active = false then (st, st.stats) else
  if inp.elapsed = false then (st, st.stats) else
  let rc := (st.refresh_counter + 1) % 3
  let cpu_usage := if 1 ≤ st.resource_level then inp.cpuFresh else st.stats.cpu_usage
  let cpu_history := histPush st.cpu_history cpu_usage
  let memory_total := inp.memTotal
  let memory_used := inp.memUsed
  let resource_level := breadthLevel memory_used st.memory_limit_min st.memory_limit_max
  let memory_usage_percent : ℚ := (memory_used : ℚ) / (memory_total : ℚ) * 100
  let memory_history := histPush st.memory_history memory_used
  let diskT := diskStep resource_level st.cycle_count inp.disks
    (st.stats.disk_total, st.stats.disk_free, st.stats.disk_usage_percent)
  let netP := netStep resource_level st.cycle_count inp.networks
    (st.stats.network_received, st.stats.network_transmitted)
  let cpu_temp := tempStep resource_level st.cycle_count inp.components st.stats.cpu_temp
  let processes_count := if rc = 0 then inp.processCount else st.stats.processes_count
  let hostname := if st.stats.hostname = "" then inp.hostOpt.getD "Unknown"
    else st.stats.hostname
  let stats : SystemStats :=
    { timestamp := inp.now_ts
      cpu_usage := cpu_usage
      memory_total := memory_total
      memory_used := memory_used
      memory_usage_percent := memory_usage_percent
      disk_total := diskT.1
      disk_free := diskT.2.1
      disk_usage_percent := diskT.2.2
      network_received := netP.1
      network_transmitted := netP.2
      uptime := inp.uptime
      system_load := [inp.load1, inp.load5, inp.load15]
      cpu_temp := cpu_temp
      processes_count := processes_count
      hostname := hostname
      memory_within_bounds :=
        decide (st.memory_limit_min ≤ memory_used ∧ memory_used ≤ st.memory_limit_max) }
  ({ st with
      stats := stats
      cpu_history := cpu_history
      memory_history := memory_history
      cycle_count := st.cycle_count + 1
      resource_level := resource_level
      refresh_counter := rc }, stats)

/-- `SystemMonitor::get_stats` (lines 415-417): just calls `refresh`. -/
def SystemMonitor.get_stats (st : SystemMonitor) (inp : MetricInput) :
    SystemMonitor × SystemStats := st.refresh inp

/-- `SystemMonitor::new` (lines 89-126): default stats, active, histories
pre-filled with `cpu_history_size = 60` / `memory_history_size = 30` zeros,
default bounds, level 2 (medium), cycle 0. -/
def SystemMonitor.new (now : Nat) : SystemMonitor where
  stats := SystemStats.default now
  active := true
  cpu_history := List.replicate 60 0
  memory_history := List.replicate 30 0
  cycle_count := 0
  memory_limit_min := DEFAULT_MIN_MEMORY
  memory_limit_max := DEFAULT_MAX_MEMORY
  resource_level := 2
  refresh_counter := 0

/-- The loop-cadence policy of the background loop of `init_monitoring`
(lines 479-531): from the refreshed `memory_used` and the bounds, pick
`(sleep_duration in seconds, resource_level)`. -/
def loopCadence (used minB maxB : Nat) : Nat × Nat :=
  if used > maxB then (20, 0)
  else if used > maxB * 90 / 100 then (10, 1)
  else if used < minB then (3, 2)
  else if used < minB + (maxB - minB) / 2 then (5, 2)
  else (8, 1)

/-- One iteration of the background loop body of `init_monitoring`
(lines 471-546): with the lock held, refresh and apply `loopCadence`; on a
failed (poisoned) lock acquisition, skip the refresh and set the next sleep
to 1 second.  Returns the new monitor state and the next `sleep_duration`. -/
def loopIter (st : SystemMonitor) (inp : MetricInput) (lockOk : Bool) :
    SystemMonitor × Nat :=
  if lockOk then
    let r := st.refresh inp
    let c := loopCadence r.2.memory_used r.1.memory_limit_min r.1.memory_limit_max
    ({ r.1 with resource_level := c.2 }, c.1)
  else (st, 1)

/-- The `/api/system-stats` handler `get_system_stats` (lines 561-570):
`monitor.lock()` succeeding is `some` state; a poisoned lock is `none`, in
which case `SystemStats::default()` is returned. -/
def get_system_stats (lockResult : Option SystemMonitor) (inp : MetricInput)
    (now : Nat) : SystemStats :=
  match lockResult with
  | some m => (m.get_stats inp).2
  | none => SystemStats.default now

/-- Iterated background refreshes (state part only). -/
def refreshN (st : SystemMonitor) (inps : List MetricInput) : SystemMonitor :=
  inps.foldl (fun s i => (s.refresh i).1) st

/-- A concrete oracle input used by the concrete-instance theorems below:
memory in the normal band, no temperature sensors. -/
def sampleInput : MetricInput where
  now_ts := 100
  elapsed := true
  cpuFresh := 25
  memTotal := 400 * MB
  memUsed := 100 * MB
  disks := [⟨1000, 400⟩, ⟨500, 100⟩, ⟨300, 50⟩]
  networks := [⟨10, 20⟩, ⟨30, 40⟩, ⟨5, 5⟩]
  uptime := 999
  load1 := 1
  load5 := 2
  load15 := 3
  components := []
  processCount := 42
  hostOpt := some "host"

/-- `sampleInput` with the elapsed-interval gate still closed (a call made
less than `update_interval` after the previous refresh). -/
def idleInput : MetricInput := { sampleInput with elapsed := false }

/-- A monitor state sitting at resource level 0 (Minimal) with a cached
CPU reading of 7 percent. -/
def minimalState : SystemMonitor :=
  { SystemMonitor.new 0 with
      resource_level := 0
      stats := { SystemStats.default 0 with cpu_usage := 7 } }

/-- `sampleInput` with a fresh CPU reading of 99 percent offered by the OS. -/
def freshCpuInput : MetricInput := { sampleInput with cpuFresh := 99 }

/-- `sampleInput` with measured memory above the maximum bound (210 MB),
which drives the breadth level to 0 (Minimal) every cycle. -/
def overInput : MetricInput := { sampleInput with memUsed := 210 * MB }

/-! Helper lemmas (shared across the claim theorems). -/

/-- The integer-division threshold `maxB * 90 / 100` agrees with the exact
rational comparison against nine tenths of `maxB`. -/
lemma mul90_div100_lt (maxB used : Nat) :
    maxB * 90 / 100 < used ↔ 9 * maxB < 10 * used := by
  rw [Nat.div_lt_iff_lt_mul (by norm_num : (0:Nat) < 100)]
  omega

/-- The integer-division threshold `maxB * 80 / 100` agrees with the exact
rational comparison against four fifths of `maxB`. -/
lemma mul80_div100_lt (maxB used : Nat) :
    maxB * 80 / 100 < used ↔ 4 * maxB < 5 * used := by
  rw [Nat.div_lt_iff_lt_mul (by norm_num : (0:Nat) < 100)]
  omega

/-- Folding `histPush` over a nonempty buffer keeps the newest entries of
the concatenation: each push drops the oldest element and appends. -/
lemma foldl_histPush (xs : List α) : ∀ l : List α, l ≠ [] →
    xs.foldl histPush l = (l ++ xs).drop xs.length := by
  induction xs with
  | nil => intro l _; simp
  | cons x xs ih =>
    intro l h
    cases l with
    | nil => exact absurd rfl h
    | cons a t =>
      simp only [List.foldl_cons]
      have h2 : histPush (a :: t) x ≠ [] := by simp [histPush]
      rw [ih _ h2]
      simp [histPush, List.append_assoc]

/-- On a sampling cycle the disk fields of the produced Snapshot are exactly
`diskStep` applied at the freshly recomputed breadth level. -/
lemma refresh_disk_eq (st : SystemMonitor) (inp : MetricInput)
    (ha : st.active = true) (he : inp.elapsed = true) :
    ((st.refresh inp).2.disk_total, (st.refresh inp).2.disk_free,
      (st.refresh inp).2.disk_usage_percent) =
      diskStep (breadthLevel inp.memUsed st.memory_limit_min st.memory_limit_max)
        st.cycle_count inp.disks
        (st.stats.disk_total, st.stats.disk_free, st.stats.disk_usage_percent) := by
  simp [SystemMonitor.refresh, ha, he]

/-- On a sampling cycle the network fields of the produced Snapshot are
exactly `netStep` applied at the freshly recomputed breadth level. -/
lemma refresh_net_eq (st : SystemMonitor) (inp : MetricInput)
    (ha : st.active = true) (he : inp.elapsed = true) :
    ((st.refresh inp).2.network_received, (st.refresh inp).2.network_transmitted) =
      netStep (breadthLevel inp.memUsed st.memory_limit_min st.memory_limit_max)
        st.cycle_count inp.networks
        (st.stats.network_received, st.stats.network_transmitted) := by
  simp [SystemMonitor.refresh, ha, he]

/-- A refresh under over-limit memory pressure (level 0) leaves the cached
disk fields and the configured maximum bound untouched. -/
lemma refresh_preserves_disk_of_over (st : SystemMonitor) (i : MetricInput)
    (h : st.memory_limit_max < i.memUsed) :
    ((st.refresh i).1.stats.disk_total = st.stats.disk_total ∧
     (st.refresh i).1.stats.disk_free = st.stats.disk_free ∧
     (st.refresh i).1.stats.disk_usage_percent = st.stats.disk_usage_percent) ∧
    (st.refresh i).1.memory_limit_max = st.memory_limit_max := by
  unfold SystemMonitor.refresh
  by_cases hA : st.active = false
  · simp [hA]
  · by_cases hE : i.elapsed = false
    · simp [hA, hE]
    · have hl : breadthLevel i.memUsed st.memory_limit_min st.memory_limit_max = 0 := by
        unfold breadthLevel
        simp [h]
      simp [hA, hE, hl, diskStep]

/-- Iterating refreshes while every measured memory value exceeds the
maximum bound never touches the cached disk fields. -/
lemma refreshN_disk_hold (inps : List MetricInput) : ∀ st : SystemMonitor,
    (∀ i ∈ inps, st.memory_limit_max < i.memUsed) →
    (refreshN st inps).stats.disk_total = st.stats.disk_total ∧
    (refreshN st inps).stats.disk_free = st.stats.disk_free ∧
    (refreshN st inps).stats.disk_usage_percent = st.stats.disk_usage_percent ∧
    (refreshN st inps).memory_limit_max = st.memory_limit_max := by
  induction inps with
  | nil => intro st _; exact ⟨rfl, rfl, rfl, rfl⟩
  | cons i is ih =>
    intro st h
    have h1 := refresh_preserves_disk_of_over st i (h i (by simp))
    have h2 := ih ((st.refresh i).1) (fun j hj => by rw [h1.2]; exact h j (by simp [hj]))
    have hrw : refreshN st (i :: is) = refreshN ((st.refresh i).1) is := rfl
    rw [hrw]
    exact ⟨h2.1.trans h1.1.1, h2.2.1.trans h1.1.2.1, h2.2.2.1.trans h1.1.2.2,
      h2.2.2.2.trans h1.2⟩

/-- The level chosen by the loop-cadence policy is always 0, 1 or 2. -/
lemma loopCadence_snd_le (used minB maxB : Nat) : (loopCadence used minB maxB).2 ≤ 2 := by
  unfold loopCadence
  split
  · omega
  · split
    · omega
    · split
      · omega
      · split <;> omega

/-- The sampling-breadth policy only ever produces levels 0, 1 or 2. -/
lemma breadthLevel_le_two (used minB maxB : Nat) : breadthLevel used minB maxB ≤ 2 := by
  unfold breadthLevel
  split
  · omega
  · split
    · omega
    · split <;> omega

/-- At levels at most 2 the high-mode network disjunct is dead code:
`netStep` reduces to the level-2 every-8th-cycle rule over the first two
interfaces. -/
lemma netStep_of_le_two (L cyc : Nat) (hL : L ≤ 2) (nets : List Network)
    (cached : Nat × Nat) :
    netStep L cyc nets cached =
      if L = 2 ∧ cyc % 8 = 0 then
        (((nets.take 2).map Network.received).sum,
         ((nets.take 2).map Network.transmitted).sum)
      else cached := by
  unfold netStep
  have h3 : ¬ 3 ≤ L := by omega
  simp [h3]

/-- A refresh keeps the resource level at or below 2. -/
lemma refresh_level_le (st : SystemMonitor) (inp : MetricInput)
    (hlev : st.resource_level ≤ 2) :
    (st.refresh inp).1.resource_level ≤ 2 := by
  unfold SystemMonitor.refresh
  by_cases hA : st.active = false
  · simp [hA, hlev]
  · by_cases hE : inp.elapsed = false
    · simp [hA, hE, hlev]
    · simp [hA, hE, breadthLevel_le_two]

/-! Claim theorems. -/

/-- Claim C1, counterexample: the initial Snapshot built by
`SystemMonitor::new` (and returned to callers before the first refresh or
when the lock is poisoned) has `memory_within_bounds = true` although its
`memory_used = 0` lies strictly below the default minimum bound, refuting
the claimed equivalence for that Snapshot. -/
theorem initial_snapshot_flag_cex :
    (SystemMonitor.new 0).stats.memory_within_bounds = true ∧
    ¬ ((SystemMonitor.new 0).memory_limit_min ≤ (SystemMonitor.new 0).stats.memory_used ∧
       (SystemMonitor.new 0).stats.memory_used ≤ (SystemMonitor.new 0).memory_limit_max) := by
  decide

/-- Claim C1, amended: for every Snapshot produced by a sampling refresh
(monitor active and the update interval elapsed), `memory_within_bounds` is
true exactly when `memory_limit_min ≤ memory_used ≤ memory_limit_max`; the
pre-refresh default Snapshot and the poisoned-lock fallback instead carry
the flag fixed to `true` regardless of the bounds. -/
theorem refresh_memory_within_bounds_iff (st : SystemMonitor) (inp : MetricInput)
    (ha : st.active = true) (he : inp.elapsed = true) :
    (st.refresh inp).2.memory_within_bounds = true ↔
      (st.memory_limit_min ≤ (st.refresh inp).2.memory_used ∧
       (st.refresh inp).2.memory_used ≤ st.memory_limit_max) := by
  simp [SystemMonitor.refresh, ha, he]

/-- Witness for the amended claim C1 at the freshly initialised monitor and
a concrete in-band measurement. -/
theorem refresh_memory_within_bounds_iff_witness :
    (SystemMonitor.new 0).active = true ∧ sampleInput.elapsed = true ∧
    (((SystemMonitor.new 0).refresh sampleInput).2.memory_within_bounds = true ↔
      ((SystemMonitor.new 0).memory_limit_min ≤
         ((SystemMonitor.new 0).refresh sampleInput).2.memory_used ∧
       ((SystemMonitor.new 0).refresh sampleInput).2.memory_used ≤
         (SystemMonitor.new 0).memory_limit_max)) :=
  ⟨rfl, rfl, refresh_memory_within_bounds_iff (SystemMonitor.new 0) sampleInput rfl rfl⟩

/-- Claim C2, counterexample: at exactly 125 MB (the midpoint
`min + (max - min) / 2` for the 50 MB / 200 MB bounds) the strict comparison
of the loop-cadence policy falls through to the final branch, giving
8 seconds at level Low (1), not the 5 seconds at level Medium (2) the claim
asserts for 125 MB. -/
theorem loopCadence_midpoint_cex :
    loopCadence (125 * MB) (50 * MB) (200 * MB) = (8, 1) ∧
    ((8, 1) : Nat × Nat) ≠ (5, 2) := by
  decide

/-- Claim C2, amended: the loop-cadence policy maps `memory_used` to the
pair (sleep seconds, level 0 = Minimal / 1 = Low / 2 = Medium) exactly as:
over max gives 20s Minimal; over nine tenths of max (exact rational
comparison) gives 10s Low; under min gives 3s Medium; strictly under
`min + (max - min) / 2` gives 5s Medium; otherwise 8s Low.  With
min = 50 MB and max = 200 MB: 210 MB gives 20s Minimal, 190 MB gives 10s
Low, 30 MB gives 3s Medium, 124 MB gives 5s Medium, the exact midpoint
125 MB gives 8s Low, and 160 MB gives 8s Low. -/
theorem loopCadence_policy :
    (∀ used minB maxB, loopCadence used minB maxB =
      if maxB < used then (20, 0)
      else if 9 * maxB < 10 * used then (10, 1)
      else if used < minB then (3, 2)
      else if used < minB + (maxB - minB) / 2 then (5, 2)
      else (8, 1)) ∧
    loopCadence (210 * MB) (50 * MB) (200 * MB) = (20, 0) ∧
    loopCadence (190 * MB) (50 * MB) (200 * MB) = (10, 1) ∧
    loopCadence (30 * MB) (50 * MB) (200 * MB) = (3, 2) ∧
    loopCadence (124 * MB) (50 * MB) (200 * MB) = (5, 2) ∧
    loopCadence (125 * MB) (50 * MB) (200 * MB) = (8, 1) ∧
    loopCadence (160 * MB) (50 * MB) (200 * MB) = (8, 1) := by
  refine ⟨?_, by decide, by decide, by decide, by decide, by decide, by decide⟩
  intro used minB maxB
  unfold loopCadence
  simp only [gt_iff_lt, mul90_div100_lt]

/-- Claim C3: the sampling-breadth policy inside `refresh` maps
`memory_used` to a level exactly as: over max gives Minimal (0); over four
fifths of max (exact rational comparison, equivalent to the integer
`max * 80 / 100` threshold of the code) gives Low (1); under min gives
Medium (2); otherwise Medium (2). -/
theorem breadthLevel_policy :
    ∀ used minB maxB, breadthLevel used minB maxB =
      if maxB < used then 0
      else if 4 * maxB < 5 * used then 1
      else if used < minB then 2
      else 2 := by
  intro used minB maxB
  unfold breadthLevel
  simp only [gt_iff_lt, mul80_div100_lt]

/-- Claim C4, counterexample: the history buffers are created pre-filled
with `capacity` zeros, so after a single push the CPU buffer still has
length 60, not `min(capacity, K) = 1`. -/
theorem history_len_cex :
    (([(1 : ℚ)]).foldl histPush (List.replicate 60 0)).length ≠ min 60 1 := by
  decide

/-- Claim C4, amended: each history buffer is created already holding
`capacity` zeros, and every push (`pop_front` then `push_back`) evicts the
oldest entry first, so after any sequence of pushes the length is always
exactly `capacity` (never `min(capacity, K)`) and the buffer holds the
newest `capacity` entries of the zero-padding followed by the pushed
values, in FIFO order. -/
theorem history_buffer_amended (cap : Nat) (hcap : 0 < cap) (xs : List ℚ) :
    (xs.foldl histPush (List.replicate cap (0 : ℚ))).length = cap ∧
    xs.foldl histPush (List.replicate cap (0 : ℚ)) =
      (List.replicate cap (0 : ℚ) ++ xs).drop xs.length := by
  have hne : List.replicate cap (0 : ℚ) ≠ [] := by
    cases cap with
    | zero => omega
    | succ n => simp
  refine ⟨?_, foldl_histPush xs _ hne⟩
  rw [foldl_histPush xs _ hne]
  simp

/-- Witness for the amended claim C4 at the CPU-history capacity 60 and a
concrete sequence of three pushes. -/
theorem history_buffer_amended_witness :
    0 < 60 ∧
    ((([(1 : ℚ), 2, 3]).foldl histPush (List.replicate 60 (0 : ℚ))).length = 60 ∧
     ([(1 : ℚ), 2, 3]).foldl histPush (List.replicate 60 (0 : ℚ)) =
       (List.replicate 60 (0 : ℚ) ++ [(1 : ℚ), 2, 3]).drop 3) :=
  ⟨by decide, history_buffer_amended 60 (by decide) [1, 2, 3]⟩

/-- Claim C5: while the update interval has not elapsed, `get_stats`
(the body of `GetSnapshot`) is a no-op returning the cached stats
unchanged, so two such calls return identical Snapshots. -/
theorem getSnapshot_idempotent (st : SystemMonitor) (inp1 inp2 : MetricInput)
    (h1 : inp1.elapsed = false) (h2 : inp2.elapsed = false) :
    st.get_stats inp1 = (st, st.stats) ∧
    ((st.get_stats inp1).1.get_stats inp2).2 = (st.get_stats inp1).2 := by
  have e : ∀ inp : MetricInput, inp.elapsed = false → st.get_stats inp = (st, st.stats) := by
    intro inp h
    unfold SystemMonitor.get_stats SystemMonitor.refresh
    cases hA : st.active <;> simp [hA, h]
  refine ⟨e inp1 h1, ?_⟩
  rw [e inp1 h1]
  simp [e inp2 h2]

/-- Witness for claim C5 at the freshly initialised monitor and a
within-interval call. -/
theorem getSnapshot_idempotent_witness :
    idleInput.elapsed = false ∧
    ((SystemMonitor.new 0).get_stats idleInput =
        (SystemMonitor.new 0, (SystemMonitor.new 0).stats) ∧
     (((SystemMonitor.new 0).get_stats idleInput).1.get_stats idleInput).2 =
       ((SystemMonitor.new 0).get_stats idleInput).2) :=
  ⟨rfl, getSnapshot_idempotent (SystemMonitor.new 0) idleInput idleInput rfl rfl⟩

/-- Claim C6, counterexample: after one successful refresh the last good
Snapshot has `memory_used = 100 MB`, but the `/api/system-stats` handler
under a poisoned lock returns `SystemStats::default()` with
`memory_used = 0`, which differs from the last good Snapshot. -/
theorem poisoned_lock_cex :
    ((SystemMonitor.new 0).refresh sampleInput).1.stats.memory_used = 100 * MB ∧
    (get_system_stats none sampleInput 0).memory_used = 0 ∧
    get_system_stats none sampleInput 0 ≠ ((SystemMonitor.new 0).refresh sampleInput).1.stats := by
  refine ⟨by decide, by decide, ?_⟩
  intro h
  have := congrArg SystemStats.memory_used h
  revert this
  decide

/-- Claim C6, amended: a poisoned lock never crashes the caller: the
`/api/system-stats` handler returns a freshly built default Snapshot (all
zero fields, not the last good Snapshot), and the background loop skips
that refresh entirely (state unchanged) and shortens its next wait to
1 second. -/
theorem poisoned_lock_amended (st : SystemMonitor) (inp : MetricInput) (now : Nat) :
    get_system_stats none inp now = SystemStats.default now ∧
    loopIter st inp false = (st, 1) :=
  ⟨rfl, rfl⟩

/-- Claim C7, counterexample: with no temperature component at all (so in
particular none matching the CPU), the very first refresh (level Medium,
cycle 0, a component re-read cycle) produces `cpu_temp = some 0`, not
`none`. -/
theorem cpu_temp_cex :
    sampleInput.components = [] ∧
    ((SystemMonitor.new 0).refresh sampleInput).2.cpu_temp = some 0 ∧
    ((SystemMonitor.new 0).refresh sampleInput).2.cpu_temp ≠ none := by
  refine ⟨rfl, by decide, by decide⟩

/-- Claim C7, amended: when no component label contains "CPU", a sampling
refresh sets `cpu_temp` to `some 0` (the untouched `max_temp = 0.0`
wrapped in `Some`) on component re-read cycles (recomputed level at least
2 and cycle count divisible by 10), and otherwise keeps the cached value —
so the field is `none` only until the first re-read cycle, never
afterwards. -/
theorem cpu_temp_amended (st : SystemMonitor) (inp : MetricInput)
    (ha : st.active = true) (he : inp.elapsed = true)
    (hn : ∀ c ∈ inp.components, labelContainsCPU c.label = false) :
    (st.refresh inp).2.cpu_temp =
      if 2 ≤ breadthLevel inp.memUsed st.memory_limit_min st.memory_limit_max ∧
         st.cycle_count % 10 = 0
      then some 0 else st.stats.cpu_temp := by
  have hf : firstCpuTemp inp.components = 0 := by
    unfold firstCpuTemp
    rw [List.find?_eq_none.mpr]
    intro c hc
    simp [hn c hc]
  simp [SystemMonitor.refresh, ha, he, tempStep, hf]

/-- Witness for the amended claim C7 at the freshly initialised monitor
and an input with no temperature components. -/
theorem cpu_temp_amended_witness :
    (SystemMonitor.new 0).active = true ∧ sampleInput.elapsed = true ∧
    (∀ c ∈ sampleInput.components, labelContainsCPU c.label = false) ∧
    ((SystemMonitor.new 0).refresh sampleInput).2.cpu_temp =
      (if 2 ≤ breadthLevel sampleInput.memUsed (SystemMonitor.new 0).memory_limit_min
            (SystemMonitor.new 0).memory_limit_max ∧
          (SystemMonitor.new 0).cycle_count % 10 = 0
       then some 0 else (SystemMonitor.new 0).stats.cpu_temp) :=
  ⟨rfl, rfl, by decide,
    cpu_temp_amended (SystemMonitor.new 0) sampleInput rfl rfl (by decide)⟩

/-- Claim C8, counterexample: on a sampling cycle at resource level 0
(Minimal) the produced Snapshot carries the previous cached CPU reading
(7), not the fresh OS value (99) — CPU usage is NOT re-queried at level 0. -/
theorem cpu_cached_minimal_cex :
    minimalState.active = true ∧ freshCpuInput.elapsed = true ∧
    freshCpuInput.cpuFresh = 99 ∧
    (minimalState.refresh freshCpuInput).2.cpu_usage = 7 := by
  refine ⟨rfl, rfl, by decide, by decide⟩

/-- Claim C8, amended: on every sampling refresh the memory totals are
freshly re-queried from the metric source, but the CPU usage is freshly
re-queried only when the resource level at entry is at least 1 (Low); at
level 0 (Minimal) the previous Snapshot value is reused. -/
theorem cpu_memory_freshness_amended (st : SystemMonitor) (inp : MetricInput)
    (ha : st.active = true) (he : inp.elapsed = true) :
    (st.refresh inp).2.memory_used = inp.memUsed ∧
    (st.refresh inp).2.memory_total = inp.memTotal ∧
    (st.refresh inp).2.cpu_usage =
      (if 1 ≤ st.resource_level then inp.cpuFresh else st.stats.cpu_usage) := by
  simp [SystemMonitor.refresh, ha, he]

/-- Witness for the amended claim C8 at a level-0 monitor state with a
fresh CPU value distinct from the cached one. -/
theorem cpu_memory_freshness_amended_witness :
    minimalState.active = true ∧ freshCpuInput.elapsed = true ∧
    ((minimalState.refresh freshCpuInput).2.memory_used = freshCpuInput.memUsed ∧
     (minimalState.refresh freshCpuInput).2.memory_total = freshCpuInput.memTotal ∧
     (minimalState.refresh freshCpuInput).2.cpu_usage =
       (if 1 ≤ minimalState.resource_level then freshCpuInput.cpuFresh
        else minimalState.stats.cpu_usage)) :=
  ⟨rfl, rfl, cpu_memory_freshness_amended minimalState freshCpuInput rfl rfl⟩

/-- Claim C9: disk totals are recomputed only when the (freshly
recomputed) resource level is at least 2 and the cycle count is divisible
by 5, or the level is 1 and the cycle count is divisible by 10; at level 0
the cached values are reused (in particular they never change across any
run of refreshes, such as 50, in which every measurement exceeds the
maximum bound and the level therefore stays Minimal); and when recomputed,
all discovered disks are summed at level at least 2 but only the first two
disks below level 2. -/
theorem disk_cadence_policy (st : SystemMonitor) (inp : MetricInput)
    (inps : List MetricInput)
    (ha : st.active = true) (he : inp.elapsed = true) :
    (¬ ((2 ≤ breadthLevel inp.memUsed st.memory_limit_min st.memory_limit_max ∧
          st.cycle_count % 5 = 0) ∨
        (breadthLevel inp.memUsed st.memory_limit_min st.memory_limit_max = 1 ∧
          st.cycle_count % 10 = 0)) →
      (st.refresh inp).2.disk_total = st.stats.disk_total ∧
      (st.refresh inp).2.disk_free = st.stats.disk_free ∧
      (st.refresh inp).2.disk_usage_percent = st.stats.disk_usage_percent) ∧
    (breadthLevel inp.memUsed st.memory_limit_min st.memory_limit_max = 0 →
      (st.refresh inp).2.disk_total = st.stats.disk_total ∧
      (st.refresh inp).2.disk_free = st.stats.disk_free ∧
      (st.refresh inp).2.disk_usage_percent = st.stats.disk_usage_percent) ∧
    (2 ≤ breadthLevel inp.memUsed st.memory_limit_min st.memory_limit_max →
      st.cycle_count % 5 = 0 → inp.disks.length ≤ USIZE_MAX →
      (st.refresh inp).2.disk_total = (inp.disks.map Disk.total_space).sum ∧
      (st.refresh inp).2.disk_free = (inp.disks.map Disk.available_space).sum) ∧
    (breadthLevel inp.memUsed st.memory_limit_min st.memory_limit_max = 1 →
      st.cycle_count % 10 = 0 →
      (st.refresh inp).2.disk_total = ((inp.disks.take 2).map Disk.total_space).sum ∧
      (st.refresh inp).2.disk_free = ((inp.disks.take 2).map Disk.available_space).sum) ∧
    ((∀ i ∈ inps, st.memory_limit_max < i.memUsed) →
      (refreshN st inps).stats.disk_total = st.stats.disk_total ∧
      (refreshN st inps).stats.disk_free = st.stats.disk_free ∧
      (refreshN st inps).stats.disk_usage_percent = st.stats.disk_usage_percent) := by
  have hd := refresh_disk_eq st inp ha he
  have hdt := congrArg Prod.fst hd
  have hdf := congrArg (fun p => p.2.1) hd
  have hdp := congrArg (fun p => p.2.2) hd
  simp only at hdt hdf hdp
  refine ⟨?_, ?_, ?_, ?_, ?_⟩
  · intro hgate
    rw [hdt, hdf, hdp]
    simp [diskStep, hgate]
  · intro h0
    rw [hdt, hdf, hdp, h0]
    simp [diskStep]
  · intro h2 h5 hlen
    rw [hdt, hdf]
    simp [diskStep, h2, h5, List.take_of_length_le hlen]
  · intro h1 h10
    rw [hdt, hdf]
    have hn2 : ¬ 2 ≤ breadthLevel inp.memUsed st.memory_limit_min st.memory_limit_max := by
      omega
    simp [diskStep, h1, h10, hn2]
  · intro hover
    have h := refreshN_disk_hold inps st hover
    exact ⟨h.1, h.2.1, h.2.2.1⟩

/-- Witness for claim C9: 50 consecutive over-limit (Minimal) cycles from
the freshly initialised monitor leave the cached disk fields unchanged. -/
theorem disk_cadence_policy_witness :
    (SystemMonitor.new 0).active = true ∧ sampleInput.elapsed = true ∧
    (∀ i ∈ List.replicate 50 overInput, (SystemMonitor.new 0).memory_limit_max < i.memUsed) ∧
    (refreshN (SystemMonitor.new 0) (List.replicate 50 overInput)).stats.disk_total =
      (SystemMonitor.new 0).stats.disk_total ∧
    (refreshN (SystemMonitor.new 0) (List.replicate 50 overInput)).stats.disk_free =
      (SystemMonitor.new 0).stats.disk_free ∧
    (refreshN (SystemMonitor.new 0) (List.replicate 50 overInput)).stats.disk_usage_percent =
      (SystemMonitor.new 0).stats.disk_usage_percent := by
  have hover : ∀ i ∈ List.replicate 50 overInput,
      (SystemMonitor.new 0).memory_limit_max < i.memUsed := by
    intro i hi
    rw [List.eq_of_mem_replicate hi]
    decide
  have h := (disk_cadence_policy (SystemMonitor.new 0) sampleInput
    (List.replicate 50 overInput) rfl rfl).2.2.2.2 hover
  exact ⟨rfl, rfl, hover, h.1, h.2.1, h.2.2⟩

/-- Claim C10: initialisation sets the resource level to 2, the
sampling-breadth policy only produces levels 0, 1 or 2, both `refresh` and
the background-loop iteration preserve "level at most 2", so the
high-mode (level at least 3) network disjunct never fires and network
counters are recomputed exactly at level 2 on cycles divisible by 8,
summing only the first two interfaces. -/
theorem resource_level_bounded (now : Nat) (st : SystemMonitor) (inp : MetricInput)
    (ok : Bool) (hlev : st.resource_level ≤ 2) :
    (SystemMonitor.new now).resource_level = 2 ∧
    breadthLevel inp.memUsed st.memory_limit_min st.memory_limit_max ≤ 2 ∧
    (st.refresh inp).1.resource_level ≤ 2 ∧
    (loopIter st inp ok).1.resource_level ≤ 2 ∧
    (st.active = true → inp.elapsed = true →
      (st.refresh inp).2.network_received =
        (if breadthLevel inp.memUsed st.memory_limit_min st.memory_limit_max = 2 ∧
            st.cycle_count % 8 = 0
         then ((inp.networks.take 2).map Network.received).sum
         else st.stats.network_received) ∧
      (st.refresh inp).2.network_transmitted =
        (if breadthLevel inp.memUsed st.memory_limit_min st.memory_limit_max = 2 ∧
            st.cycle_count % 8 = 0
         then ((inp.networks.take 2).map Network.transmitted).sum
         else st.stats.network_transmitted)) := by
  refine ⟨rfl, breadthLevel_le_two _ _ _, refresh_level_le st inp hlev, ?_, ?_⟩
  · unfold loopIter
    cases ok with
    | false => simpa using hlev
    | true => simp [loopCadence_snd_le]
  · intro ha he
    have h := refresh_net_eq st inp ha he
    have hn := netStep_of_le_two
      (breadthLevel inp.memUsed st.memory_limit_min st.memory_limit_max)
      st.cycle_count (breadthLevel_le_two _ _ _) inp.networks
      (st.stats.network_received, st.stats.network_transmitted)
    rw [hn] at h
    constructor
    · have := congrArg Prod.fst h
      simpa [apply_ite Prod.fst] using this
    · have := congrArg Prod.snd h
      simpa [apply_ite Prod.snd] using this

/-- Witness for claim C10 at the freshly initialised monitor (level 2). -/
theorem resource_level_bounded_witness :
    (SystemMonitor.new 0).resource_level ≤ 2 ∧
    ((SystemMonitor.new 0).refresh sampleInput).1.resource_level ≤ 2 ∧
    (loopIter (SystemMonitor.new 0) sampleInput true).1.resource_level ≤ 2 :=
  ⟨by decide,
   (resource_level_bounded 0 (SystemMonitor.new 0) sampleInput true (by decide)).2.2.1,
   (resource_level_bounded 0 (SystemMonitor.new 0) sampleInput true (by decide)).2.2.2.1⟩

end ZLT
